import Mathlib

/-!
# Verification of the subscription / payment-activation core

Shallow embedding of the subscription-billing and plan-enforcement subsystem
of the clinic-management backend:

* `src/services/paymentService.js` (DB-driven Razorpay variant):
  `getPlanPriceRupees`, `createRazorpayOrderService`, `verifyPaymentSignature`,
  `confirmRazorpayPaymentService`, `submitManualPaymentService`;
* `src/models/tenantModel.js`: the tenant document and its subscription
  sub-record (status enum `STATUSES`);
* `src/middlewares/enforceDoctorLimit.js`: the doctor-seat quota middleware;
* `DoctorService.assertTenantCanAddDoctor` (service-layer seat check);
* `src/services/tenantService.js`: `registerClinicTransaction`;
* `src/controllers/paymentController.js`: `verifyOrder`.

Modelling conventions:

* Mongo documents live in lists; `_id` values are `Nat` (Mongo guarantees
  uniqueness of `_id`; theorems that need it take it as a hypothesis).
  `mongoose.Types.ObjectId.isValid` is abstracted: `0` is the one invalid
  sentinel id, every other `Nat` is a valid id.
* Nullable / possibly-absent document fields are `Option`; JS strings that
  are checked for falsiness are `String` with `""` standing for
  undefined/null/empty.
* HMAC-SHA256 is an abstract parameter `hmac : String → String → String`
  (secret, text ↦ hex digest); `crypto.createHmac("sha256", secret)
  .update(orderId + "|" + paymentId).digest("hex")` becomes
  `hmac secret (orderId ++ "|" ++ paymentId)`.
* The external Razorpay order-creation call is an oracle argument
  `provider : Except String String` (order id on success, error message on
  failure), quantified over in the theorems.
* `Date.now()` / `new Date()` are an explicit `now : Nat` argument.
* Amounts are integer rupees/paise (`Nat`); the catalog stores positive
  integer rupee prices, so `Math.round(n * 100)` is exactly `n * 100`.
* Throwing JS functions return `Except String α` together with the
  post-state: a thrown error after a completed write keeps the write
  (mirroring that `payment.save()` has already hit the database before the
  `throw`).
-/

namespace Clinic

/-- Tenant `subscription.status` enum from `tenantModel.js`:
`STATUSES = ["ACTIVE", "PAST_DUE", "CANCELED", "PENDING_VERIFICATION"]`. -/
def STATUSES : List String :=
  ["ACTIVE", "PAST_DUE", "CANCELED", "PENDING_VERIFICATION"]

/-- Payment `status` enum from `paymentModel.js`. -/
def PAY_STATUSES : List String := ["PENDING", "COMPLETED", "FAILED", "REFUNDED"]

/-- `ALLOWED_PLANS` in `paymentService.js`. -/
def ALLOWED_PLANS : List String := ["PRO", "ENTERPRISE", "PROFESSIONAL"]

/-- `ALLOWED_CYCLES` in `paymentService.js`. -/
def ALLOWED_CYCLES : List String := ["monthly", "yearly"]

/-- A catalog tier (`planModel.js` document, fields used by the payment
service: `name`, `price.monthly`, `price.yearly`, `isActive`). -/
structure Plan where
  name : String
  priceMonthly : Nat
  priceYearly : Nat
  isActive : Bool
  deriving Repr, DecidableEq

/-- The tenant `subscription` sub-document (`tenantModel.js`).
`billingCycle` and `activatedAt` are written by the payment service with
`$set` paths; they are carried here as document fields. -/
structure Subscription where
  plan : String
  billingCycle : String
  status : String
  razorpayOrderId : Option String
  razorpayPaymentId : Option String
  activatedAt : Option Nat
  deriving Repr, DecidableEq

/-- A tenant (clinic) document — the fields the core reads or writes. -/
structure Tenant where
  id : Nat
  name : String
  registrationId : String
  address : String
  ownerId : Nat
  isPublic : Bool
  subscription : Subscription
  deriving Repr, DecidableEq

/-- A user document (`userModel.js`) — fields used by registration. -/
structure User where
  id : Nat
  name : String
  email : String
  passwordHash : String
  role : String
  isVerified : Bool
  tenantId : Option Nat
  deriving Repr, DecidableEq

/-- A doctor document — only the fields the seat-count query filters on
(`Doctor.countDocuments({ tenantId, isDeleted: { $ne: true } })`). -/
structure Doctor where
  id : Nat
  tenantId : Nat
  isDeleted : Bool
  deriving Repr, DecidableEq

/-- A payment-ledger document (`paymentModel.js`), as created and mutated by
the payment service. -/
structure PaymentRecord where
  id : Nat
  tenantId : Nat
  userId : Option Nat
  email : String
  amountPaise : Nat
  currency : String
  purpose : String
  planCode : String
  billingCycle : String
  method : String
  status : String
  razorpayOrderId : Option String
  razorpayPaymentId : Option String
  razorpaySignature : Option String
  transactionRef : Option String
  clientAmountRupees : Nat
  updatedAt : Nat
  deriving Repr, DecidableEq

/-- The document store: one collection per model. -/
structure DB where
  users : List User
  tenants : List Tenant
  doctors : List Doctor
  payments : List PaymentRecord
  deriving Repr, DecidableEq

/-! ## Collection primitives -/

/-- `Tenant.findById` — `_id` lookup. -/
def findTenant (db : DB) (tid : Nat) : Option Tenant :=
  db.tenants.find? (fun t => t.id == tid)

/-- `Payment.findOne({ razorpayOrderId })`. -/
def findPaymentByOrder (db : DB) (orderId : String) : Option PaymentRecord :=
  db.payments.find? (fun p => p.razorpayOrderId == some orderId)

/-- `payment.save()` — replace the document with the saved one, keyed by the
unique `_id` (Mongo updates exactly the one matching document). -/
def savePayment : List PaymentRecord → PaymentRecord → List PaymentRecord
  | [], _ => []
  | q :: rest, p => if q.id = p.id then p :: rest else q :: savePayment rest p

/-- `Tenant.updateOne(filter, { $set: ... })` — update the first document
matching the filter, returning the new collection and `matchedCount`
(0 or 1, since `updateOne` touches at most one document). -/
def updateOneTenant : List Tenant → (Tenant → Bool) → (Tenant → Tenant) →
    List Tenant × Nat
  | [], _, _ => ([], 0)
  | t :: rest, q, f =>
    if q t then (f t :: rest, 1)
    else
      let r := updateOneTenant rest q f
      (t :: r.1, r.2)

/-- The seat-count collaborator:
`Doctor.countDocuments({ tenantId, isDeleted: { $ne: true } })`. -/
def doctorCountOf (db : DB) (tid : Nat) : Nat :=
  (db.doctors.filter (fun d => d.tenantId == tid && !d.isDeleted)).length

/-! ## Normalisation helpers (`paymentService.js` Utils section)

JS `toUpperCase` / `toLowerCase` / `trim` are embedded char-wise (rather
than through the core `String` wrappers, whose recursors do not reduce in
the kernel) so that witnesses can evaluate them. -/

/-- JS `String.prototype.toUpperCase` (ASCII case mapping). -/
def jsToUpper (s : String) : String := ⟨s.data.map Char.toUpper⟩

/-- JS `String.prototype.toLowerCase` (ASCII case mapping). -/
def jsToLower (s : String) : String := ⟨s.data.map Char.toLower⟩

/-- JS `String.prototype.trim` — strip whitespace from both ends. -/
def jsTrim (s : String) : String :=
  ⟨((s.data.dropWhile Char.isWhitespace).reverse.dropWhile Char.isWhitespace).reverse⟩

/-- `normalizeEmail`: `String(email).trim().toLowerCase()`. -/
def normalizeEmail (email : String) : String := jsToLower (jsTrim email)

/-- `normalizePlanCode`: `String(v || "").trim().toUpperCase()`. -/
def normalizePlanCode (v : String) : String := jsToUpper (jsTrim v)

/-- `normalizeCycle`: `String(v || "monthly").trim().toLowerCase()`. -/
def normalizeCycle (v : String) : String :=
  jsToLower (jsTrim (if v = "" then "monthly" else v))

/-- `toPaise`: rejects a non-positive amount, otherwise
`Math.round(amountRupees * 100)` (exact for integer rupees). -/
def toPaise (amountRupees : Nat) : Except String Nat :=
  if amountRupees = 0 then .error "Invalid amount."
  else .ok (amountRupees * 100)

/-! ## `getPlanPriceRupees` — canonical price lookup -/

/-- Result of `getPlanPriceRupees`: `{ code, cycle, rupees }`. -/
structure PlanPrice where
  code : String
  cycle : String
  rupees : Nat
  deriving Repr, DecidableEq

/-- `getPlanPriceRupees({ planCode, billingCycle })`: validates the pair,
reads the plan document (`Plan.findOne({ name: code, isActive: true })`)
and selects `price.yearly` or `price.monthly`. -/
def getPlanPriceRupees (plans : List Plan) (planCode billingCycle : String) :
    Except String PlanPrice :=
  let code := normalizePlanCode planCode
  let cycle := normalizeCycle billingCycle
  if !ALLOWED_PLANS.contains code then .error "Invalid planCode."
  else if !ALLOWED_CYCLES.contains cycle then .error "Invalid billingCycle."
  else
    match plans.find? (fun p => p.name == code && p.isActive) with
    | none => .error ("Plan \x22" ++ code ++ "\x22 not found or inactive.")
    | some plan =>
      let rupees := if cycle = "yearly" then plan.priceYearly else plan.priceMonthly
      if rupees = 0 then
        .error ("Invalid price config for plan \x22" ++ code ++ "\x22 (" ++ cycle ++ ").")
      else .ok { code := code, cycle := cycle, rupees := rupees }

/-! ## `createRazorpayOrderService` -/

/-- The request object the controller passes to `createRazorpayOrderService`.
`callerAmount` models an extra amount field a caller could put in the raw
request body: the JS function destructures only
`{ tenantId, userId, email, planCode, billingCycle, currency }`, so a
caller-supplied amount is never read. -/
structure CreateOrderReq where
  tenantId : Nat
  userId : Option Nat
  email : String
  planCode : String
  billingCycle : String
  currency : String
  callerAmount : Option Nat
  deriving Repr, DecidableEq

/-- Result of `createRazorpayOrderService`: the created provider order
(id and echoed amount/currency) plus the ledger entry data. -/
structure CreateOrderResult where
  orderId : String
  orderAmount : Nat
  paymentId : Nat
  amountPaise : Nat
  currency : String
  planCode : String
  billingCycle : String
  deriving Repr, DecidableEq

/-- `createRazorpayOrderService`: validates the request, reads the tenant,
computes the amount from the plan catalog (`getPlanPriceRupees` + `toPaise`
— never from the caller), calls the provider (`razorpay.orders.create`,
here the oracle `provider`), inserts a PENDING `RAZORPAY` payment record
and stores the selection on the tenant with
`subscription.status := "PENDING_VERIFICATION"`.
`newPaymentId` stands for the Mongo-generated `_id` of the created record;
`now` for `Date.now()`. -/
def createRazorpayOrderService (plans : List Plan) (provider : Except String String)
    (newPaymentId now : Nat) (db : DB) (req : CreateOrderReq) :
    Except String CreateOrderResult × DB :=
  if req.tenantId = 0 then (.error "Invalid tenantId.", db)
  else if req.userId = some 0 then (.error "Invalid userId.", db)
  else if req.email = "" then (.error "email is required.", db)
  else
    let emailLower := normalizeEmail req.email
    match findTenant db req.tenantId with
    | none => (.error "Tenant not found.", db)
    | some _ =>
      match getPlanPriceRupees plans req.planCode req.billingCycle with
      | .error e => (.error e, db)
      | .ok pp =>
        match toPaise pp.rupees with
        | .error e => (.error e, db)
        | .ok amountPaise =>
          let curr := jsToUpper (if req.currency = "" then "INR" else req.currency)
          match provider with
          | .error e =>
            (.error (if e = "" then "Razorpay order creation failed." else e), db)
          | .ok orderId =>
            let payRec : PaymentRecord :=
              { id := newPaymentId
                tenantId := req.tenantId
                userId := req.userId
                email := emailLower
                amountPaise := amountPaise
                currency := curr
                purpose := "SUBSCRIPTION"
                planCode := pp.code
                billingCycle := pp.cycle
                method := "RAZORPAY"
                status := "PENDING"
                razorpayOrderId := some orderId
                razorpayPaymentId := none
                razorpaySignature := none
                transactionRef := none
                clientAmountRupees := 0
                updatedAt := now }
            let db1 := { db with payments := db.payments ++ [payRec] }
            let upd := updateOneTenant db1.tenants (fun t => t.id == req.tenantId)
              (fun t => { t with subscription :=
                { t.subscription with
                    plan := pp.code
                    billingCycle := pp.cycle
                    razorpayOrderId := some orderId
                    status := "PENDING_VERIFICATION" } })
            (.ok { orderId := orderId
                   orderAmount := amountPaise
                   paymentId := newPaymentId
                   amountPaise := amountPaise
                   currency := curr
                   planCode := pp.code
                   billingCycle := pp.cycle },
             { db1 with tenants := upd.1 })

/-! ## `verifyPaymentSignature` and `confirmRazorpayPaymentService` -/

/-- `verifyPaymentSignature({ orderId, paymentId, signature })`: false on
any missing field, otherwise compares the signature against the
HMAC-SHA256 of `orderId + "|" + paymentId` under the shared secret. -/
def verifyPaymentSignature (hmac : String → String → String) (secret : String)
    (orderId paymentId signature : String) : Bool :=
  if orderId = "" || paymentId = "" || signature = "" then false
  else hmac secret (orderId ++ "|" ++ paymentId) == signature

/-- Result object of `confirmRazorpayPaymentService`. The JS returns raw
(possibly undefined) document fields in the idempotent branch, hence the
`Option` typing of the provider ids. -/
structure ConfirmResult where
  status : String
  tenantId : Nat
  planCode : String
  razorpayOrderId : Option String
  razorpayPaymentId : Option String
  deriving Repr, DecidableEq

/-- Instrumented outcome of `confirmRazorpayPaymentService`: the returned
value or thrown error, the post-state, and whether the signature
verification (`verifyPaymentSignature`) was invoked on this call. -/
structure ConfirmOut where
  result : Except String ConfirmResult
  db : DB
  sigVerifyInvoked : Bool
  deriving Repr

/-- `confirmRazorpayPaymentService({ razorpayOrderId, razorpayPaymentId,
razorpaySignature })`:
1. rejects missing fields;
2. looks up the payment record by order id (`PaymentRecordNotFound` guard);
3. idempotency guard — if the record is already COMPLETED, re-asserts the
   tenant activation with a conditional `updateOne` (matching only a
   non-ACTIVE subscription) and returns the stored result without
   re-verifying;
4. otherwise verifies the signature; on mismatch saves the record as FAILED
   and throws;
5. on match saves the record as COMPLETED and activates the tenant with an
   `updateOne` matched on `_id` and `subscription.razorpayOrderId`;
   a zero `matchedCount` throws (after the ledger write). -/
def confirmRazorpayPaymentService (hmac : String → String → String) (secret : String)
    (now : Nat) (db : DB) (orderId paymentId signature : String) : ConfirmOut :=
  if orderId = "" || paymentId = "" || signature = "" then
    ⟨.error "Missing payment verification fields.", db, false⟩
  else
    match findPaymentByOrder db orderId with
    | none => ⟨.error "Payment record not found for this order.", db, false⟩
    | some payment =>
      if payment.status = "COMPLETED" then
        let upd := updateOneTenant db.tenants
          (fun t => t.id == payment.tenantId && t.subscription.status != "ACTIVE")
          (fun t => { t with subscription :=
            { t.subscription with
                plan := payment.planCode
                status := "ACTIVE"
                razorpayPaymentId := payment.razorpayPaymentId
                activatedAt :=
                  some (if payment.updatedAt = 0 then now else payment.updatedAt) } })
        ⟨.ok { status := "COMPLETED"
               tenantId := payment.tenantId
               planCode := payment.planCode
               razorpayOrderId := payment.razorpayOrderId
               razorpayPaymentId := payment.razorpayPaymentId },
         { db with tenants := upd.1 }, false⟩
      else
        if verifyPaymentSignature hmac secret orderId paymentId signature then
          let payment' := { payment with
            status := "COMPLETED"
            razorpayPaymentId := some paymentId
            razorpaySignature := some signature
            updatedAt := now }
          let db1 := { db with payments := savePayment db.payments payment' }
          let upd := updateOneTenant db1.tenants
            (fun t => t.id == payment.tenantId &&
                      t.subscription.razorpayOrderId == some orderId)
            (fun t => { t with subscription :=
              { t.subscription with
                  plan := payment.planCode
                  status := "ACTIVE"
                  razorpayPaymentId := some paymentId
                  billingCycle :=
                    if payment.billingCycle = "" then "monthly" else payment.billingCycle
                  activatedAt := some now } })
          let db2 := { db1 with tenants := upd.1 }
          if upd.2 = 0 then
            ⟨.error "Tenant subscription update failed: orderId mismatch or tenant not found.",
             db2, true⟩
          else
            ⟨.ok { status := "COMPLETED"
                   tenantId := payment.tenantId
                   planCode := payment.planCode
                   razorpayOrderId := some orderId
                   razorpayPaymentId := some paymentId }, db2, true⟩
        else
          let payment' := { payment with
            status := "FAILED"
            razorpayPaymentId := some paymentId
            razorpaySignature := some signature
            updatedAt := now }
          ⟨.error "Security verification failed: Signature mismatch.",
           { db with payments := savePayment db.payments payment' }, true⟩

/-! ## `submitManualPaymentService` -/

/-- The request for `submitManualPaymentService`; `amountRupees` is the
optional display-only caller amount. -/
structure ManualReq where
  tenantId : Nat
  userId : Option Nat
  email : String
  planCode : String
  billingCycle : String
  transactionRef : String
  amountRupees : Nat
  deriving Repr, DecidableEq

/-- Result of `submitManualPaymentService`: `{ paymentId, status }`. -/
structure ManualResult where
  paymentId : Nat
  status : String
  deriving Repr, DecidableEq

/-- `submitManualPaymentService`: validates, computes the canonical amount
from the catalog, creates a PENDING `MANUAL` payment record (the caller
amount goes only into `metadata.clientAmountRupees`), and sets the tenant
subscription to the chosen plan with status `"PENDING_VERIFICATION"`
("Keep tenant pending until admin approves"). -/
def submitManualPaymentService (plans : List Plan) (newPaymentId now : Nat)
    (db : DB) (req : ManualReq) : Except String ManualResult × DB :=
  if req.tenantId = 0 then (.error "Invalid tenantId.", db)
  else if req.userId = some 0 then (.error "Invalid userId.", db)
  else if req.email = "" then (.error "email is required.", db)
  else if req.transactionRef = "" then (.error "transactionRef is required.", db)
  else
    let emailLower := normalizeEmail req.email
    let code := normalizePlanCode req.planCode
    if !ALLOWED_PLANS.contains code then (.error "Invalid planCode.", db)
    else
      let cycle := normalizeCycle req.billingCycle
      if !ALLOWED_CYCLES.contains cycle then (.error "Invalid billingCycle.", db)
      else
        match getPlanPriceRupees plans code cycle with
        | .error e => (.error e, db)
        | .ok pp =>
          match toPaise pp.rupees with
          | .error e => (.error e, db)
          | .ok amountPaise =>
            let payRec : PaymentRecord :=
              { id := newPaymentId
                tenantId := req.tenantId
                userId := req.userId
                email := emailLower
                amountPaise := amountPaise
                currency := "INR"
                purpose := "SUBSCRIPTION"
                planCode := code
                billingCycle := cycle
                method := "MANUAL"
                status := "PENDING"
                razorpayOrderId := none
                razorpayPaymentId := none
                razorpaySignature := none
                transactionRef := some (jsTrim req.transactionRef)
                clientAmountRupees := req.amountRupees
                updatedAt := now }
            let db1 := { db with payments := db.payments ++ [payRec] }
            let upd := updateOneTenant db1.tenants (fun t => t.id == req.tenantId)
              (fun t => { t with subscription :=
                { t.subscription with
                    plan := code
                    billingCycle := cycle
                    status := "PENDING_VERIFICATION" } })
            (.ok { paymentId := newPaymentId, status := payRec.status },
             { db1 with tenants := upd.1 })

/-! ## `registerClinicTransaction` (`tenantService.js`)

The JS runs inside a Mongoose session transaction: every `create`/`save`
with `{ session }` is staged and becomes visible only at
`session.commitTransaction()`; any thrown error triggers
`session.abortTransaction()`, discarding all staged writes. The embedding
makes the staging explicit: the committed state is returned only on the
all-success path; every failure path returns the original state.
`RegFailures` is the failure oracle — one flag per step that can throw
(bcrypt hash, the two creates, the linking save, the Redis `setEx`, the
OTP mail, the commit itself). -/

/-- Owner payload of `registerClinicTransaction`. -/
structure RegOwner where
  name : String
  email : String
  password : String
  deriving Repr, DecidableEq

/-- Clinic payload of `registerClinicTransaction`. -/
structure RegClinic where
  name : String
  registrationId : String
  address : String
  deriving Repr, DecidableEq

/-- Failure oracle for the failable steps of the registration transaction. -/
structure RegFailures where
  hashFails : Bool
  createUserFails : Bool
  createTenantFails : Bool
  saveUserFails : Bool
  redisFails : Bool
  mailFails : Bool
  commitFails : Bool
  deriving Repr, DecidableEq

/-- `registerClinicTransaction(ownerData, clinicData)`: duplicate-email
check, user create (role `CLINIC_ADMIN`, unverified), tenant create
(`subscription: { plan: "FREE", status: "ACTIVE" }`, `ownerId` set to the
new user), then the user is linked to the tenant and the transaction is
committed; Redis/OTP-mail side effects sit before the commit, so their
failure also aborts. `uid`/`tid` stand for the Mongo-generated ids. -/
def registerClinicTransaction (hash : String → String) (uid tid : Nat)
    (failures : RegFailures) (db : DB) (owner : RegOwner) (clinic : RegClinic) :
    Except String (Nat × Nat) × DB :=
  let emailLower := jsTrim (jsToLower owner.email)
  if (db.users.find? (fun u => u.email == emailLower)).isSome then
    (.error "This email is already registered to a medical faculty.", db)
  else if failures.hashFails then (.error "bcrypt hash failed", db)
  else if failures.createUserFails then (.error "User.create failed", db)
  else
    let user : User :=
      { id := uid
        name := owner.name
        email := emailLower
        passwordHash := hash owner.password
        role := "CLINIC_ADMIN"
        isVerified := false
        tenantId := none }
    if failures.createTenantFails then (.error "Tenant.create failed", db)
    else
      let tenant : Tenant :=
        { id := tid
          name := clinic.name
          registrationId := clinic.registrationId
          address := clinic.address
          ownerId := user.id
          isPublic := true
          subscription :=
            { plan := "FREE"
              billingCycle := ""
              status := "ACTIVE"
              razorpayOrderId := none
              razorpayPaymentId := none
              activatedAt := none } }
      if failures.saveUserFails then (.error "user.save failed", db)
      else
        let linkedUser := { user with tenantId := some tenant.id }
        if failures.redisFails then (.error "redis setEx failed", db)
        else if failures.mailFails then (.error "sendMail failed", db)
        else if failures.commitFails then (.error "commitTransaction failed", db)
        else
          (.ok (uid, tid),
           { db with
               users := db.users ++ [linkedUser]
               tenants := db.tenants ++ [tenant] })

/-! ## Doctor-seat entitlement checks -/

/-- A plan seat limit: a finite bound or the unlimited sentinel
(`Infinity` in the JS). -/
inductive SeatLimit where
  | fin : Nat → SeatLimit
  | unlimited : SeatLimit
  deriving Repr, DecidableEq

/-- Plan → limit mapping of `enforceDoctorLimit.js`
(`PRO → 3, ENTERPRISE → 5, PROFESSIONAL → Infinity, otherwise 0`). -/
def planLimitMw (plan : String) : SeatLimit :=
  if plan = "PRO" then .fin 3
  else if plan = "ENTERPRISE" then .fin 5
  else if plan = "PROFESSIONAL" then .unlimited
  else .fin 0

/-- `getPlanLimit` of the `DoctorService` revision containing
`assertTenantCanAddDoctor` (`FREE → 1, PRO → 3, ENTERPRISE → 10,
PROFESSIONAL/UNLIMITED → Infinity, otherwise 0`). -/
def getPlanLimit (plan : String) : SeatLimit :=
  let p := jsToUpper plan
  if p = "FREE" then .fin 1
  else if p = "PRO" then .fin 3
  else if p = "ENTERPRISE" then .fin 10
  else if p = "PROFESSIONAL" || p = "UNLIMITED" then .unlimited
  else .fin 0

/-- Outcome of the Express middleware: pass through to `next()` or respond
with a status code and message. -/
inductive MwResult where
  | next : MwResult
  | reject : Nat → String → MwResult
  deriving Repr, DecidableEq

/-- Middleware outcome instrumented with whether the seat-count query
(`Doctor.countDocuments`) was executed. -/
structure MwOutcome where
  result : MwResult
  countQueried : Bool
  deriving Repr, DecidableEq

/-- `enforceDoctorLimit`: requires a tenant context and an ACTIVE
subscription, maps the plan to its limit, rejects unknown plans,
short-circuits `next()` for the unlimited sentinel WITHOUT counting, and
otherwise counts non-archived doctors and rejects once `count ≥ limit`. -/
def enforceDoctorLimit (db : DB) (authTenantId : Option Nat) : MwOutcome :=
  match authTenantId with
  | none => ⟨.reject 400 "Tenant context missing in token.", false⟩
  | some tid =>
    if tid = 0 then ⟨.reject 400 "Invalid tenant reference.", false⟩
    else
      match findTenant db tid with
      | none => ⟨.reject 404 "Tenant not found.", false⟩
      | some t =>
        let plan := jsToUpper t.subscription.plan
        let status := jsToUpper t.subscription.status
        if status ≠ "ACTIVE" then
          ⟨.reject 403 "Subscription inactive. Complete payment to add doctors.", false⟩
        else
          match planLimitMw plan with
          | .fin 0 =>
            ⟨.reject 403 ("Plan \x22" ++ plan ++ "\x22 is not allowed for doctor creation."),
             false⟩
          | .unlimited => ⟨.next, false⟩
          | .fin limit =>
            let currentCount := doctorCountOf db tid
            if currentCount ≥ limit then
              ⟨.reject 403 ("Doctor limit reached for " ++ plan ++
                            ". Max allowed: " ++ toString limit ++ "."), true⟩
            else ⟨.next, true⟩

/-- Success value of `assertTenantCanAddDoctor`: `{ plan, limit }`. -/
structure AssertOk where
  plan : String
  limit : SeatLimit
  deriving Repr, DecidableEq

/-- Outcome of `assertTenantCanAddDoctor`: the returned value or the thrown
`AppError` (status code, error code, message), instrumented with whether
`Doctor.countDocuments` was executed. -/
structure AssertOutcome where
  result : Except (Nat × String × String) AssertOk
  countQueried : Bool
  deriving Repr

/-- `DoctorService.assertTenantCanAddDoctor(tenantId)` (the revision cited
by the claims): invalid-id and not-found guards, `SUBSCRIPTION_INACTIVE`
unless the status is ACTIVE, then it ALWAYS runs the seat-count query and
afterwards tests `limit !== Infinity && currentCount >= limit`. -/
def assertTenantCanAddDoctor (db : DB) (tenantId : Nat) : AssertOutcome :=
  if tenantId = 0 then
    ⟨.error (400, "INVALID_TENANT", "Invalid tenant identity."), false⟩
  else
    match findTenant db tenantId with
    | none => ⟨.error (404, "TENANT_NOT_FOUND", "Clinic profile not found."), false⟩
    | some t =>
      let status := jsToUpper t.subscription.status
      if status ≠ "ACTIVE" then
        ⟨.error (403, "SUBSCRIPTION_INACTIVE",
                 "Subscription inactive. Protocol access denied."), false⟩
      else
        let plan := jsToUpper t.subscription.plan
        let limit := getPlanLimit plan
        let currentCount := doctorCountOf db tenantId
        let reached : Bool :=
          match limit with
          | .fin l => decide (currentCount ≥ l)
          | .unlimited => false
        if limit != SeatLimit.unlimited && reached then
          ⟨.error (403, "DOCTOR_LIMIT_REACHED",
                   "Faculty limit reached for " ++ plan ++ " tier."), true⟩
        else ⟨.ok { plan := plan, limit := limit }, true⟩

/-! ## `paymentController.verifyOrder` -/

/-- HTTP-layer outcome of the `verifyOrder` controller: a success JSON, a
failure JSON with its status code, or an error forwarded by `catchAsync`
to the express error handler. -/
inductive HttpRes where
  | ok : Nat → ConfirmResult → HttpRes
  | fail : Nat → String → HttpRes
  | forwarded : String → HttpRes
  deriving Repr, DecidableEq

/-- `verifyOrder(req, res)`: auth-context guard, missing-field guard, then
it calls `confirmRazorpayPaymentService` FIRST and only afterwards compares
the authenticated tenant with the owning tenant of the confirmed payment,
responding 403 on mismatch — the service post-state is kept either way. -/
def verifyOrder (hmac : String → String → String) (secret : String) (now : Nat)
    (db : DB) (authTenantId : Option Nat) (orderId paymentId signature : String) :
    HttpRes × DB :=
  match authTenantId with
  | none => (.fail 401 "Auth context missing. Please login again.", db)
  | some a =>
    if orderId = "" || paymentId = "" || signature = "" then
      (.fail 400 "Missing Razorpay verification fields.", db)
    else
      let out := confirmRazorpayPaymentService hmac secret now db orderId paymentId signature
      match out.result with
      | .error e => (.forwarded e, out.db)
      | .ok r =>
        if r.tenantId ≠ a then
          (.fail 403 "Payment does not belong to this tenant.", out.db)
        else (.ok 200 r, out.db)

/-! ## List-level helper lemmas -/

/-- `find?` over a decomposition whose prefix all fails the predicate. -/
theorem find_across_append {α : Type} (pre : List α) (x : α) (post : List α)
    (q : α → Bool) (hpre : ∀ u ∈ pre, q u = false) (hx : q x = true) :
    (pre ++ x :: post).find? q = some x := by
  induction pre with
  | nil => simp [List.find?_cons, hx]
  | cons a rest ih =>
    have ha : q a = false := hpre a (List.mem_cons_self a rest)
    simp only [List.cons_append, List.find?_cons, ha]
    exact ih (fun u hu => hpre u (List.mem_cons_of_mem a hu))

/-- `filter` of a decomposition keeps exactly the middle element when the
prefix and suffix all fail the predicate. -/
theorem filter_across_append {α : Type} (pre : List α) (x : α) (post : List α)
    (q : α → Bool) (hpre : ∀ u ∈ pre, q u = false) (hx : q x = true)
    (hpost : ∀ u ∈ post, q u = false) :
    (pre ++ x :: post).filter q = [x] := by
  induction pre with
  | nil =>
    simp only [List.nil_append, List.filter_cons, hx]
    simpa using List.filter_eq_nil_iff.mpr (fun u hu => by simp [hpost u hu])
  | cons a rest ih =>
    have ha : q a = false := hpre a (List.mem_cons_self a rest)
    simp only [List.cons_append, List.filter_cons, ha]
    exact ih (fun u hu => hpre u (List.mem_cons_of_mem a hu))

/-- `updateOneTenant` is the identity (with `matchedCount = 0`) when no
document matches the filter. -/
theorem updateOneTenant_of_no_match (ts : List Tenant) (q : Tenant → Bool)
    (f : Tenant → Tenant) (h : ∀ t ∈ ts, q t = false) :
    updateOneTenant ts q f = (ts, 0) := by
  induction ts with
  | nil => rfl
  | cons t rest ih =>
    have ht : q t = false := h t (List.mem_cons_self t rest)
    have := ih (fun u hu => h u (List.mem_cons_of_mem t hu))
    simp [updateOneTenant, ht, this]

/-- `updateOneTenant` rewrites exactly the first match found by `find?`. -/
theorem updateOneTenant_decomp (ts : List Tenant) (q : Tenant → Bool)
    (f : Tenant → Tenant) (t : Tenant) (hfind : ts.find? q = some t) :
    ∃ pre post, ts = pre ++ t :: post ∧ (∀ u ∈ pre, q u = false) ∧ q t = true ∧
      updateOneTenant ts q f = (pre ++ f t :: post, 1) := by
  induction ts with
  | nil => simp [List.find?] at hfind
  | cons a rest ih =>
    by_cases ha : q a
    · have : a = t := by
        have := hfind
        rw [List.find?_cons_of_pos _ ha] at this
        exact Option.some.inj this
      subst this
      exact ⟨[], rest, rfl, by simp, ha, by simp [updateOneTenant, ha]⟩
    · have hfind' : rest.find? q = some t := by
        have := hfind
        rwa [List.find?_cons_of_neg _ ha] at this
      obtain ⟨pre, post, h1, h2, h3, h4⟩ := ih hfind'
      refine ⟨a :: pre, post, by simp [h1], ?_, h3, ?_⟩
      · intro u hu
        rcases List.mem_cons.mp hu with h | h
        · subst h; simpa using ha
        · exact h2 u h
      · simp [updateOneTenant, ha, h4]

/-- `savePayment` rewrites exactly the record found by `find?`, provided the
collection has no duplicate `_id` (a Mongo guarantee) and the saved
document keeps its `_id`. -/
theorem savePayment_decomp (key : PaymentRecord → Bool) (ps : List PaymentRecord)
    (p p' : PaymentRecord) (hfind : ps.find? key = some p)
    (hids : (ps.map PaymentRecord.id).Nodup) (hid : p'.id = p.id) :
    ∃ pre post, ps = pre ++ p :: post ∧ (∀ u ∈ pre, key u = false) ∧
      savePayment ps p' = pre ++ p' :: post := by
  induction ps with
  | nil => simp [List.find?] at hfind
  | cons a rest ih =>
    by_cases ha : key a
    · have : a = p := by
        have := hfind
        rw [List.find?_cons_of_pos _ ha] at this
        exact Option.some.inj this
      subst this
      exact ⟨[], rest, rfl, by simp, by simp [savePayment, hid.symm]⟩
    · have hfind' : rest.find? key = some p := by
        have := hfind
        rwa [List.find?_cons_of_neg _ ha] at this
      have hpmem : p ∈ rest := List.mem_of_find?_eq_some hfind'
      have hids' : (rest.map PaymentRecord.id).Nodup ∧
          a.id ∉ rest.map PaymentRecord.id := by
        rw [List.map_cons, List.nodup_cons] at hids
        exact ⟨hids.2, hids.1⟩
      have haid : a.id ≠ p.id := by
        intro h
        exact hids'.2 (h ▸ List.mem_map_of_mem PaymentRecord.id hpmem)
      obtain ⟨pre, post, h1, h2, h3⟩ := ih hfind' hids'.1
      refine ⟨a :: pre, post, by simp [h1], ?_, ?_⟩
      · intro u hu
        rcases List.mem_cons.mp hu with h | h
        · subst h; simpa using ha
        · exact h2 u h
      · simp [savePayment, hid, haid, h3]

/-- A successful canonical price lookup returns a positive price that is
exactly the selected cycle price of an active catalog plan. -/
theorem getPlanPriceRupees_spec (plans : List Plan) (planCode billingCycle : String)
    (pp : PlanPrice) (h : getPlanPriceRupees plans planCode billingCycle = .ok pp) :
    0 < pp.rupees ∧
      ∃ plan ∈ plans, plan.name = pp.code ∧ plan.isActive = true ∧
        pp.rupees = (if pp.cycle = "yearly" then plan.priceYearly else plan.priceMonthly) := by
  simp only [getPlanPriceRupees] at h
  split at h
  · exact absurd h (by simp)
  split at h
  · exact absurd h (by simp)
  split at h
  next => exact absurd h (by simp)
  next plan hfind =>
    have hq := List.find?_some hfind
    rw [Bool.and_eq_true, beq_iff_eq] at hq
    have hmem := List.mem_of_find?_eq_some hfind
    split at h
    next hcy =>
      split at h
      next => exact absurd h (by simp)
      next hz =>
        have hpp := Except.ok.inj h
        subst hpp
        exact ⟨Nat.pos_of_ne_zero hz, plan, hmem, hq.1, hq.2, by simp [hcy]⟩
    next hcy =>
      split at h
      next => exact absurd h (by simp)
      next hz =>
        have hpp := Except.ok.inj h
        subst hpp
        exact ⟨Nat.pos_of_ne_zero hz, plan, hmem, hq.1, hq.2, by simp [hcy]⟩

/-! ## Concrete fixtures (used by witnesses and counterexamples) -/

/-- Plan catalog fixture mirroring the seeded tiers
(`PRO 1999/19990, ENTERPRISE 4999/49990, PROFESSIONAL 7999/79990`). -/
def plansFix : List Plan :=
  [{ name := "PRO", priceMonthly := 1999, priceYearly := 19990, isActive := true },
   { name := "ENTERPRISE", priceMonthly := 4999, priceYearly := 49990, isActive := true },
   { name := "PROFESSIONAL", priceMonthly := 7999, priceYearly := 79990, isActive := true }]

/-- A concrete stand-in for HMAC-SHA256 (injective on its inputs for the
purposes of the fixtures; never returns the empty string). -/
def hmacFix : String → String → String :=
  fun secret text => "hmac:" ++ secret ++ ":" ++ text

/-- An ACTIVE PRO subscription holding the provider order `order_1`. -/
def subActiveFix : Subscription :=
  { plan := "PRO"
    billingCycle := "monthly"
    status := "ACTIVE"
    razorpayOrderId := some "order_1"
    razorpayPaymentId := none
    activatedAt := none }

/-- An ACTIVE tenant (id 1). -/
def tenantActiveFix : Tenant :=
  { id := 1
    name := "Clinic One"
    registrationId := "REG-1"
    address := "1 Main St"
    ownerId := 7
    isPublic := true
    subscription := subActiveFix }

/-- A PENDING provider payment (id 10) for tenant 1 and order `order_1`. -/
def payPendingFix : PaymentRecord :=
  { id := 10
    tenantId := 1
    userId := some 7
    email := "owner@clinic.one"
    amountPaise := 199900
    currency := "INR"
    purpose := "SUBSCRIPTION"
    planCode := "PRO"
    billingCycle := "monthly"
    method := "RAZORPAY"
    status := "PENDING"
    razorpayOrderId := some "order_1"
    razorpayPaymentId := none
    razorpaySignature := none
    transactionRef := none
    clientAmountRupees := 0
    updatedAt := 5 }

/-- Store fixture: one ACTIVE tenant, one PENDING payment. -/
def dbFix : DB :=
  { users := [], tenants := [tenantActiveFix], doctors := [], payments := [payPendingFix] }

/-- Order-creation request fixture for tenant 1. -/
def orderReqFix : CreateOrderReq :=
  { tenantId := 1
    userId := some 7
    email := "owner@clinic.one"
    planCode := "PRO"
    billingCycle := "monthly"
    currency := "INR"
    callerAmount := none }

/-- Manual-payment request fixture for tenant 1. -/
def manualReqFix : ManualReq :=
  { tenantId := 1
    userId := some 7
    email := "owner@clinic.one"
    planCode := "PRO"
    billingCycle := "monthly"
    transactionRef := "UTR-123"
    amountRupees := 5 }

/-! ## C9 — order-creation failure atomicity -/

/-- C9: if the payment-provider order-creation call fails,
`createRazorpayOrderService` fails with the order-creation error and the
store is completely unchanged — in particular no PaymentRecord is
persisted. -/
theorem createOrder_provider_failure_atomic
    (plans : List Plan) (e : String) (newPaymentId now : Nat) (db : DB)
    (req : CreateOrderReq) (t : Tenant) (pp : PlanPrice)
    (hid : req.tenantId ≠ 0) (huid : req.userId ≠ some 0) (hemail : req.email ≠ "")
    (ht : findTenant db req.tenantId = some t)
    (hpp : getPlanPriceRupees plans req.planCode req.billingCycle = .ok pp) :
    createRazorpayOrderService plans (.error e) newPaymentId now db req =
      (.error (if e = "" then "Razorpay order creation failed." else e), db) := by
  have hpos := (getPlanPriceRupees_spec plans _ _ pp hpp).1
  unfold createRazorpayOrderService
  rw [if_neg hid, if_neg huid, if_neg hemail, ht, hpp]
  simp [toPaise, Nat.pos_iff_ne_zero.mp hpos]

/-- Witness for C9 at the concrete fixture store. -/
theorem createOrder_provider_failure_atomic_witness :
    createRazorpayOrderService plansFix (.error "provider down") 11 50 dbFix orderReqFix =
      (.error "provider down", dbFix) := by
  have h := createOrder_provider_failure_atomic plansFix "provider down" 11 50 dbFix
    orderReqFix tenantActiveFix
    { code := "PRO", cycle := "monthly", rupees := 1999 }
    (by decide) (by decide) (by decide) rfl rfl
  rw [if_neg (by decide : ¬("provider down" = ""))] at h
  exact h

/-! ## C5 — price integrity of order creation -/

/-- C5: `createRazorpayOrderService` never reads a caller-supplied amount
(two requests differing only in that field behave identically), and on
success the provider order amount and the inserted PaymentRecord amount
are exactly 100 times the catalog rupee price for the validated
(plan, cycle) pair, with that price coming from an active plan of the
store. -/
theorem createOrder_price_integrity
    (plans : List Plan) (provider : Except String String) (newPaymentId now : Nat)
    (db : DB) (req : CreateOrderReq) :
    (∀ a1 a2 : Option Nat,
      createRazorpayOrderService plans provider newPaymentId now db
        { req with callerAmount := a1 } =
      createRazorpayOrderService plans provider newPaymentId now db
        { req with callerAmount := a2 }) ∧
    (∀ r db', createRazorpayOrderService plans provider newPaymentId now db req =
        (.ok r, db') →
      ∃ pp, getPlanPriceRupees plans req.planCode req.billingCycle = .ok pp ∧
        (∃ plan ∈ plans, plan.name = pp.code ∧ plan.isActive = true ∧
          pp.rupees = (if pp.cycle = "yearly" then plan.priceYearly else plan.priceMonthly)) ∧
        r.amountPaise = pp.rupees * 100 ∧
        r.orderAmount = pp.rupees * 100 ∧
        (∃ rec ∈ db'.payments, rec.id = newPaymentId ∧
          rec.amountPaise = pp.rupees * 100 ∧ rec.status = "PENDING")) := by
  constructor
  · intro a1 a2
    cases req
    rfl
  · intro r db' h
    unfold createRazorpayOrderService at h
    split at h
    · exact absurd h (by simp)
    split at h
    · exact absurd h (by simp)
    split at h
    · exact absurd h (by simp)
    split at h
    · exact absurd h (by simp)
    next t hts =>
    split at h
    next => exact absurd h (by simp)
    next pp hpp =>
    split at h
    next => exact absurd h (by simp)
    next amountPaise hap =>
    have hspec := getPlanPriceRupees_spec plans _ _ pp hpp
    have hamt : amountPaise = pp.rupees * 100 := by
      unfold toPaise at hap
      rw [if_neg (Nat.pos_iff_ne_zero.mp hspec.1)] at hap
      exact (Except.ok.inj hap).symm
    rcases provider with e | orderId
    · exact absurd h (by simp)
    simp only [Prod.mk.injEq, Except.ok.injEq] at h
    obtain ⟨h1, h2⟩ := h
    subst h1
    subst h2
    refine ⟨pp, hpp, hspec.2, hamt, hamt, ?_⟩
    exact ⟨_, List.mem_append_right _ (List.mem_singleton.mpr rfl), rfl, hamt, rfl⟩

/-- Witness for C5 at the concrete fixture store: the PRO/monthly order is
created with amount 199900 paise = 100 × the catalog price 1999. -/
theorem createOrder_price_integrity_witness :
    ∃ pp, getPlanPriceRupees plansFix orderReqFix.planCode orderReqFix.billingCycle =
        .ok pp ∧
      ∃ r db',
        createRazorpayOrderService plansFix (.ok "order_9") 11 50 dbFix orderReqFix =
          (.ok r, db') ∧
        r.amountPaise = pp.rupees * 100 ∧ r.amountPaise = 199900 := by
  obtain ⟨pp, hpp, _, hamt, _, _⟩ :=
    (createOrder_price_integrity plansFix (.ok "order_9") 11 50 dbFix orderReqFix).2 _ _ rfl
  refine ⟨pp, hpp, _, _, rfl, hamt, ?_⟩
  have : pp = { code := "PRO", cycle := "monthly", rupees := 1999 } := by
    have := hpp
    rw [show getPlanPriceRupees plansFix orderReqFix.planCode orderReqFix.billingCycle =
      .ok { code := "PRO", cycle := "monthly", rupees := 1999 } from rfl] at this
    exact (Except.ok.inj this).symm
  rw [hamt, this]
  decide

/-! ## C3 — manual payment submission and the tenant status -/

/-- C3 counterexample: for the fixture tenant whose subscription status is
ACTIVE before the call, a valid manual submission succeeds but afterwards
the tenant status is PENDING_VERIFICATION — the status did NOT stay equal
to its pre-call value, contradicting the claim that the tenant
subscription status is left unchanged (at PENDING_PAYMENT, a value that
does not even occur in the model enum). -/
theorem submitManual_active_status_changed :
    tenantActiveFix.subscription.status = "ACTIVE" ∧
    (submitManualPaymentService plansFix 12 60 dbFix manualReqFix).2.tenants.map
        (fun t => t.subscription.status) = ["PENDING_VERIFICATION"] ∧
    ("PENDING_VERIFICATION" : String) ≠ "ACTIVE" ∧
    (∃ r, (submitManualPaymentService plansFix 12 60 dbFix manualReqFix).1 = .ok r) := by
  exact ⟨rfl, rfl, by decide, ⟨_, rfl⟩⟩

/-- C3 (amended): a valid manual submission creates a PaymentRecord with
status PENDING and method MANUAL, and SETS the tenant subscription status
to PENDING_VERIFICATION regardless of its previous value; in particular it
never activates the tenant — after the call the owning tenant's status is
PENDING_VERIFICATION, which is not ACTIVE. -/
theorem submitManualPayment_never_activates
    (plans : List Plan) (newPaymentId now : Nat) (db : DB) (req : ManualReq)
    (r : ManualResult) (db' : DB) (t : Tenant)
    (ht : findTenant db req.tenantId = some t)
    (h : submitManualPaymentService plans newPaymentId now db req = (.ok r, db')) :
    r.status = "PENDING" ∧
    (∃ rec ∈ db'.payments, rec.id = newPaymentId ∧ rec.method = "MANUAL" ∧
      rec.status = "PENDING") ∧
    (∃ t', findTenant db' req.tenantId = some t' ∧
      t'.subscription.status = "PENDING_VERIFICATION" ∧
      t'.subscription.status ≠ "ACTIVE") := by
  unfold submitManualPaymentService at h
  split at h
  · exact absurd h (by simp)
  split at h
  · exact absurd h (by simp)
  split at h
  · exact absurd h (by simp)
  split at h
  · exact absurd h (by simp)
  dsimp only at h
  split at h
  · exact absurd h (by simp)
  split at h
  · exact absurd h (by simp)
  split at h
  next => exact absurd h (by simp)
  next pp hpp =>
  split at h
  next => exact absurd h (by simp)
  next amountPaise hap =>
  simp only [Prod.mk.injEq, Except.ok.injEq] at h
  obtain ⟨h1, h2⟩ := h
  subst h1
  subst h2
  obtain ⟨pre, post, hts, hpre, hqt, hupd⟩ :=
    updateOneTenant_decomp db.tenants (fun u => u.id == req.tenantId)
      (fun u => { u with subscription :=
        { u.subscription with
            plan := normalizePlanCode req.planCode
            billingCycle := normalizeCycle req.billingCycle
            status := "PENDING_VERIFICATION" } }) t ht
  refine ⟨rfl, ⟨_, List.mem_append_right _ (List.mem_singleton.mpr rfl), rfl, rfl, rfl⟩, ?_⟩
  unfold findTenant
  dsimp only
  rw [hupd]
  exact ⟨_, find_across_append pre _ post _ hpre (by simpa using hqt), rfl,
    show ("PENDING_VERIFICATION" : String) ≠ "ACTIVE" by decide⟩

/-- Witness for the amended C3 at the concrete fixture store. -/
theorem submitManualPayment_never_activates_witness :
    ∃ r db', submitManualPaymentService plansFix 12 60 dbFix manualReqFix = (.ok r, db') ∧
      r.status = "PENDING" ∧
      (∃ t', findTenant db' manualReqFix.tenantId = some t' ∧
        t'.subscription.status = "PENDING_VERIFICATION") := by
  obtain ⟨h1, _, h3⟩ :=
    submitManualPayment_never_activates plansFix 12 60 dbFix manualReqFix _ _
      tenantActiveFix rfl rfl
  obtain ⟨t', ht', hst, _⟩ := h3
  exact ⟨_, _, rfl, h1, t', ht', hst⟩

/-! ## C8 — registration atomicity -/

/-- C8: `registerClinicTransaction` is atomic — for every failure pattern
of its failable steps, either it fails and the store is completely
unchanged (no orphaned user, no orphaned tenant), or it succeeds and the
store gains exactly one new user and one new tenant that are cross-linked
(the user's tenantId is the new tenant's id and the tenant's ownerId is
the new user's id). -/
theorem registerClinic_atomic
    (hash : String → String) (uid tid : Nat) (failures : RegFailures) (db : DB)
    (owner : RegOwner) (clinic : RegClinic) :
    (∃ e, registerClinicTransaction hash uid tid failures db owner clinic =
      (.error e, db)) ∨
    (∃ user tenant,
      registerClinicTransaction hash uid tid failures db owner clinic =
        (.ok (uid, tid),
         { db with users := db.users ++ [user], tenants := db.tenants ++ [tenant] }) ∧
      user.id = uid ∧ tenant.id = tid ∧
      user.tenantId = some tenant.id ∧ tenant.ownerId = user.id) := by
  unfold registerClinicTransaction
  dsimp only
  split
  · exact Or.inl ⟨_, rfl⟩
  split
  · exact Or.inl ⟨_, rfl⟩
  split
  · exact Or.inl ⟨_, rfl⟩
  split
  · exact Or.inl ⟨_, rfl⟩
  split
  · exact Or.inl ⟨_, rfl⟩
  split
  · exact Or.inl ⟨_, rfl⟩
  split
  · exact Or.inl ⟨_, rfl⟩
  split
  · exact Or.inl ⟨_, rfl⟩
  exact Or.inr ⟨_, _, rfl, rfl, rfl, rfl, rfl⟩

/-! ## Generic uniqueness helpers -/

/-- `find?` hits the designated element when it is the only one satisfying
the predicate. -/
theorem find_of_unique_match {α : Type} (ts : List α) (q : α → Bool) (t : α)
    (ht : t ∈ ts) (hq : q t = true) (huniq : ∀ u ∈ ts, q u = true → u = t) :
    ts.find? q = some t := by
  induction ts with
  | nil => cases ht
  | cons a rest ih =>
    by_cases ha : q a
    · have : a = t := huniq a (List.mem_cons_self a rest) ha
      subst this
      rw [List.find?_cons_of_pos _ ha]
    · rcases List.mem_cons.mp ht with h | hmem
      · exact absurd (h ▸ hq) (by simpa using ha)
      · rw [List.find?_cons_of_neg _ ha]
        exact ih hmem (fun u hu h => huniq u (List.mem_cons_of_mem a hu) h)

/-- In a decomposition of a list whose keys are pairwise distinct, no
element of the prefix or the suffix shares the middle element's key. -/
theorem nodup_key_decomp {α β : Type} (key : α → β)
    (pre post : List α) (t : α)
    (h : ((pre ++ t :: post).map key).Nodup) :
    ∀ u, (u ∈ pre ∨ u ∈ post) → key u ≠ key t := by
  rw [List.map_append, List.map_cons, List.nodup_append] at h
  obtain ⟨hpre, hmid, hdisj⟩ := h
  intro u hu
  rcases hu with hu | hu
  · exact fun hk => (hdisj (List.mem_map_of_mem key hu) (by simp [hk])).elim
  · rw [List.nodup_cons] at hmid
    exact fun hk => hmid.1 (hk ▸ List.mem_map_of_mem key hu)

/-! ## C6 — seat-limit postcondition of the doctor-add check -/

/-- C6: for an existing tenant, the doctor-add quota middleware
(`enforceDoctorLimit`) fails with the subscription-inactive rejection
whenever the status is not ACTIVE — without running the seat-count query,
hence regardless of the seat count — and, for an ACTIVE tenant whose plan
maps to a finite positive limit L, it passes exactly when the count of
non-archived doctors is below L and rejects with a message reporting the
plan and the limit once the count reaches L. -/
theorem enforceDoctorLimit_seat_postcondition
    (db : DB) (tid : Nat) (t : Tenant) (L : Nat)
    (htid : tid ≠ 0)
    (ht : findTenant db tid = some t) :
    (jsToUpper t.subscription.status ≠ "ACTIVE" →
      enforceDoctorLimit db (some tid) =
        ⟨.reject 403 "Subscription inactive. Complete payment to add doctors.", false⟩) ∧
    (jsToUpper t.subscription.status = "ACTIVE" →
      planLimitMw (jsToUpper t.subscription.plan) = .fin L → 0 < L →
      ((enforceDoctorLimit db (some tid)).result = .next ↔ doctorCountOf db tid < L) ∧
      (L ≤ doctorCountOf db tid →
        enforceDoctorLimit db (some tid) =
          ⟨.reject 403 ("Doctor limit reached for " ++ jsToUpper t.subscription.plan ++
            ". Max allowed: " ++ toString L ++ "."), true⟩)) := by
  constructor
  · intro hst
    unfold enforceDoctorLimit
    dsimp only
    rw [if_neg htid, ht]
    dsimp only
    rw [if_pos hst]
  · intro hst hpl hL
    unfold enforceDoctorLimit
    dsimp only
    rw [if_neg htid, ht]
    dsimp only
    rw [if_neg (not_not_intro hst), hpl]
    obtain ⟨n, rfl⟩ : ∃ n, L = n + 1 := ⟨L - 1, by omega⟩
    split
    next h0 => exact absurd h0 (by simp)
    next heq => simp at heq
    next l heq =>
      injection heq with heq2
      subst heq2
      split
      next hge =>
        refine ⟨⟨fun hx => absurd hx (by simp), fun hlt => by omega⟩, fun _ => rfl⟩
      next hlt =>
        refine ⟨⟨fun _ => by omega, fun _ => rfl⟩, fun hge2 => by omega⟩

/-- Witness for C6: an ACTIVE PRO tenant (limit 3) with three live doctors
is rejected with the plan and the limit in the message, with two doctors
the middleware passes, and a PAST_DUE tenant is rejected as inactive. -/
theorem enforceDoctorLimit_seat_postcondition_witness :
    (enforceDoctorLimit
        { dbFix with doctors := [⟨1, 1, false⟩, ⟨2, 1, false⟩, ⟨3, 1, false⟩] }
        (some 1) =
      ⟨.reject 403 "Doctor limit reached for PRO. Max allowed: 3.", true⟩) ∧
    ((enforceDoctorLimit { dbFix with doctors := [⟨1, 1, false⟩, ⟨2, 1, false⟩] }
        (some 1)).result = .next) ∧
    (enforceDoctorLimit
        { dbFix with tenants :=
          [{ tenantActiveFix with subscription :=
            { subActiveFix with status := "PAST_DUE" } }] }
        (some 1) =
      ⟨.reject 403 "Subscription inactive. Complete payment to add doctors.", false⟩) := by
  refine ⟨?_, ?_, ?_⟩
  · have h := (enforceDoctorLimit_seat_postcondition
      { dbFix with doctors := [⟨1, 1, false⟩, ⟨2, 1, false⟩, ⟨3, 1, false⟩] }
      1 tenantActiveFix 3 (by decide) rfl).2 (by decide) rfl (by decide)
    exact h.2 (by decide)
  · have h := (enforceDoctorLimit_seat_postcondition
      { dbFix with doctors := [⟨1, 1, false⟩, ⟨2, 1, false⟩] }
      1 tenantActiveFix 3 (by decide) rfl).2 (by decide) rfl (by decide)
    exact h.1.mpr (by decide)
  · exact (enforceDoctorLimit_seat_postcondition
      { dbFix with tenants :=
        [{ tenantActiveFix with subscription :=
          { subActiveFix with status := "PAST_DUE" } }] }
      1 { tenantActiveFix with subscription :=
        { subActiveFix with status := "PAST_DUE" } } 3 (by decide) rfl).1 (by decide)

/-! ## C7 — unlimited-plan short-circuit -/

/-- An ACTIVE tenant (id 2) on the unlimited-sentinel PROFESSIONAL plan. -/
def tenantUnlimitedFix : Tenant :=
  { tenantActiveFix with
      id := 2
      registrationId := "REG-2"
      subscription := { subActiveFix with plan := "PROFESSIONAL" } }

/-- Store fixture with the unlimited-plan tenant and one live doctor. -/
def dbUnlimitedFix : DB :=
  { users := []
    tenants := [tenantUnlimitedFix]
    doctors := [{ id := 1, tenantId := 2, isDeleted := false }]
    payments := [] }

/-- C7 counterexample: for an ACTIVE tenant on the unlimited plan the
service-layer check `assertTenantCanAddDoctor` succeeds — but it DOES
execute the seat-count query (`Doctor.countDocuments` runs before the
unlimited test), contradicting the claim that the doctor count query is
not executed on the unlimited path. -/
theorem assertCanAddDoctor_counts_on_unlimited :
    (assertTenantCanAddDoctor dbUnlimitedFix 2).countQueried = true ∧
    (assertTenantCanAddDoctor dbUnlimitedFix 2).result =
      .ok { plan := "PROFESSIONAL", limit := .unlimited } := by
  exact ⟨rfl, rfl⟩

/-- C7 (amended): for an ACTIVE tenant on a plan with the unlimited seat
sentinel, the route middleware `enforceDoctorLimit` passes WITHOUT running
the seat-count query, and the service-layer `assertTenantCanAddDoctor`
also succeeds — with a result that does not depend on the doctors
collection — but it DOES run the seat-count query. -/
theorem unlimited_plan_check
    (db : DB) (tid : Nat) (t : Tenant)
    (htid : tid ≠ 0) (ht : findTenant db tid = some t)
    (hst : jsToUpper t.subscription.status = "ACTIVE")
    (hplmw : planLimitMw (jsToUpper t.subscription.plan) = .unlimited)
    (hplsvc : getPlanLimit (jsToUpper t.subscription.plan) = .unlimited) :
    enforceDoctorLimit db (some tid) = ⟨.next, false⟩ ∧
    (assertTenantCanAddDoctor db tid).countQueried = true ∧
    (assertTenantCanAddDoctor db tid).result =
      .ok { plan := jsToUpper t.subscription.plan, limit := .unlimited } ∧
    (∀ docs : List Doctor,
      (assertTenantCanAddDoctor { db with doctors := docs } tid).result =
        .ok { plan := jsToUpper t.subscription.plan, limit := .unlimited }) := by
  have hmw : enforceDoctorLimit db (some tid) = ⟨.next, false⟩ := by
    unfold enforceDoctorLimit
    dsimp only
    rw [if_neg htid, ht]
    dsimp only
    rw [if_neg (not_not_intro hst), hplmw]
  have hsvc : ∀ docs : List Doctor,
      assertTenantCanAddDoctor { db with doctors := docs } tid =
        ⟨.ok { plan := jsToUpper t.subscription.plan, limit := .unlimited }, true⟩ := by
    intro docs
    unfold assertTenantCanAddDoctor
    rw [if_neg htid]
    rw [show findTenant { db with doctors := docs } tid = some t from ht]
    dsimp only
    rw [if_neg (not_not_intro hst), hplsvc]
    rfl
  have hsvc0 : assertTenantCanAddDoctor db tid =
      ⟨.ok { plan := jsToUpper t.subscription.plan, limit := .unlimited }, true⟩ := by
    have := hsvc db.doctors
    simpa using this
  exact ⟨hmw, by rw [hsvc0], by rw [hsvc0], fun docs => by rw [hsvc docs]⟩

/-- Witness for the amended C7 at the unlimited-plan fixture tenant. -/
theorem unlimited_plan_check_witness :
    enforceDoctorLimit dbUnlimitedFix (some 2) = ⟨.next, false⟩ ∧
    (assertTenantCanAddDoctor dbUnlimitedFix 2).countQueried = true := by
  obtain ⟨h1, h2, _, _⟩ :=
    unlimited_plan_check dbUnlimitedFix 2 tenantUnlimitedFix
      (by decide) rfl rfl rfl rfl
  exact ⟨h1, h2⟩

/-! ## C2 — signature tampering -/

/-- C2 counterexample: the empty string is a signature different from the
HMAC of "order_1|pay_1", yet the call with it fails with the
missing-fields error — not SignatureMismatch — and leaves the fixture
record PENDING, not FAILED. -/
theorem confirm_empty_signature_not_failed :
    ("" : String) ≠ hmacFix "secret" ("order_1" ++ "|" ++ "pay_1") ∧
    (confirmRazorpayPaymentService hmacFix "secret" 100 dbFix "order_1" "pay_1" "").result =
      .error "Missing payment verification fields." ∧
    (confirmRazorpayPaymentService hmacFix "secret" 100 dbFix "order_1" "pay_1" "").db =
      dbFix ∧
    payPendingFix.status = "PENDING" := by
  exact ⟨by decide, rfl, rfl, rfl⟩

/-- C2 (amended): for a pending payment record found by its order id,
confirming with the correct orderId, a NONEMPTY paymentId and a NONEMPTY
signature different from the HMAC-SHA256 of "orderId|paymentId" under the
secret throws the SignatureMismatch error and leaves that PaymentRecord in
status FAILED, never COMPLETED. (An empty signature instead hits the
missing-fields guard and leaves the record PENDING.) -/
theorem confirm_bad_signature_fails
    (hmac : String → String → String) (secret : String) (now : Nat) (db : DB)
    (oid pid sig : String) (p : PaymentRecord)
    (hoid : oid ≠ "") (hpid : pid ≠ "") (hsig : sig ≠ "")
    (hbad : sig ≠ hmac secret (oid ++ "|" ++ pid))
    (hfind : findPaymentByOrder db oid = some p)
    (hpids : (db.payments.map PaymentRecord.id).Nodup)
    (hp : p.status = "PENDING") :
    (confirmRazorpayPaymentService hmac secret now db oid pid sig).result =
      .error "Security verification failed: Signature mismatch." ∧
    (confirmRazorpayPaymentService hmac secret now db oid pid sig).sigVerifyInvoked = true ∧
    (∃ p', findPaymentByOrder
        (confirmRazorpayPaymentService hmac secret now db oid pid sig).db oid = some p' ∧
      p'.status = "FAILED" ∧ p'.status ≠ "COMPLETED") ∧
    (∀ q ∈ (confirmRazorpayPaymentService hmac secret now db oid pid sig).db.payments,
      q.id = p.id → q.status = "FAILED") := by
  have hguard : (oid = "" || pid = "" || sig = "") = false := by
    simp [hoid, hpid, hsig]
  have hver : verifyPaymentSignature hmac secret oid pid sig = false := by
    unfold verifyPaymentSignature
    rw [if_neg (by simp [hoid, hpid, hsig])]
    exact beq_eq_false_iff_ne.mpr (fun hc => hbad hc.symm)
  obtain ⟨pre, post, hps, hpre, hsave⟩ :=
    savePayment_decomp (fun q => q.razorpayOrderId == some oid) db.payments p
      { p with
          status := "FAILED", razorpayPaymentId := some pid,
          razorpaySignature := some sig, updatedAt := now }
      hfind hpids rfl
  have hrun : confirmRazorpayPaymentService hmac secret now db oid pid sig =
      ⟨.error "Security verification failed: Signature mismatch.",
        { db with
            payments := savePayment db.payments
              { p with
                  status := "FAILED", razorpayPaymentId := some pid,
                  razorpaySignature := some sig, updatedAt := now } },
        true⟩ := by
    unfold confirmRazorpayPaymentService
    rw [if_neg (by simp [hoid, hpid, hsig]), hfind]
    dsimp only
    rw [if_neg (by rw [hp]; decide), hver]
    simp only [Bool.false_eq_true, if_false]
  have hkeep : (fun q => q.razorpayOrderId == some oid)
      ({ p with
          status := "FAILED", razorpayPaymentId := some pid,
          razorpaySignature := some sig, updatedAt := now } : PaymentRecord) = true := by
    have := List.find?_some hfind
    simpa using this
  refine ⟨by rw [hrun], by rw [hrun], ?_, ?_⟩
  · refine ⟨{ p with
        status := "FAILED", razorpayPaymentId := some pid,
        razorpaySignature := some sig, updatedAt := now }, ?_, rfl, ?_⟩
    · rw [hrun]
      show (savePayment db.payments _).find? _ = _
      rw [hsave]
      exact find_across_append pre _ post _ hpre hkeep
    · exact show ("FAILED" : String) ≠ "COMPLETED" by decide
  · intro q hq hqid
    rw [hrun] at hq
    have hq2 : q ∈ pre ++
        ({ p with
            status := "FAILED", razorpayPaymentId := some pid,
            razorpaySignature := some sig, updatedAt := now } : PaymentRecord) :: post := by
      simpa [hsave] using hq
    have hnodup2 : ((pre ++ p :: post).map PaymentRecord.id).Nodup := hps ▸ hpids
    rcases List.mem_append.mp hq2 with hmem | hmem
    · exact absurd hqid (nodup_key_decomp PaymentRecord.id pre post p hnodup2 q (Or.inl hmem))
    · rcases List.mem_cons.mp hmem with hmem | hmem
      · rw [hmem]
      · exact absurd hqid (nodup_key_decomp PaymentRecord.id pre post p hnodup2 q (Or.inr hmem))

/-- Witness for the amended C2: a forged signature on the fixture pending
payment yields SignatureMismatch and a FAILED record. -/
theorem confirm_bad_signature_fails_witness :
    (confirmRazorpayPaymentService hmacFix "secret" 100 dbFix "order_1" "pay_1"
      "forged-signature").result =
      .error "Security verification failed: Signature mismatch." ∧
    (∃ p', findPaymentByOrder
        (confirmRazorpayPaymentService hmacFix "secret" 100 dbFix "order_1" "pay_1"
          "forged-signature").db "order_1" = some p' ∧
      p'.status = "FAILED") := by
  obtain ⟨h1, _, ⟨p', hp', hst, _⟩, _⟩ :=
    confirm_bad_signature_fails hmacFix "secret" 100 dbFix "order_1" "pay_1"
      "forged-signature" payPendingFix
      (by decide) (by decide) (by decide) (by decide) rfl (by decide) rfl
  exact ⟨h1, p', hp', hst⟩

/-! ## First-call success characterisation (shared by C1 and C10) -/

/-- Characterisation of a first successful confirmation: on a pending
record found by its order id whose signature matches, and with the owning
tenant holding that order id, `confirmRazorpayPaymentService` returns the
completed summary, saves the record as COMPLETED (keeping it the unique
record for this order), and sets the owning tenant ACTIVE. -/
theorem confirm_success_spec
    (hmac : String → String → String) (secret : String) (now : Nat) (db : DB)
    (oid pid sig : String) (p p' : PaymentRecord) (t : Tenant)
    (hoid : oid ≠ "") (hpid : pid ≠ "")
    (hsig0 : hmac secret (oid ++ "|" ++ pid) ≠ "")
    (hsigdef : sig = hmac secret (oid ++ "|" ++ pid))
    (hpdef : p' = { p with
      status := "COMPLETED", razorpayPaymentId := some pid,
      razorpaySignature := some sig, updatedAt := now })
    (hfind : findPaymentByOrder db oid = some p)
    (hkey : ∀ q ∈ db.payments, q.razorpayOrderId = some oid → q = p)
    (hpids : (db.payments.map PaymentRecord.id).Nodup)
    (hp : p.status = "PENDING")
    (ht : t ∈ db.tenants) (htid : t.id = p.tenantId)
    (hto : t.subscription.razorpayOrderId = some oid)
    (htids : (db.tenants.map Tenant.id).Nodup) :
    (confirmRazorpayPaymentService hmac secret now db oid pid sig).result =
      .ok { status := "COMPLETED", tenantId := p.tenantId, planCode := p.planCode,
            razorpayOrderId := some oid, razorpayPaymentId := some pid } ∧
    (confirmRazorpayPaymentService hmac secret now db oid pid sig).sigVerifyInvoked = true ∧
    findPaymentByOrder (confirmRazorpayPaymentService hmac secret now db oid pid sig).db
      oid = some p' ∧
    (confirmRazorpayPaymentService hmac secret now db oid pid sig).db.payments.filter
      (fun q => q.razorpayOrderId == some oid) = [p'] ∧
    (∀ u ∈ (confirmRazorpayPaymentService hmac secret now db oid pid sig).db.tenants,
      u.id = p.tenantId → u.subscription.status = "ACTIVE") ∧
    (confirmRazorpayPaymentService hmac secret now db oid pid sig).db.users = db.users ∧
    (confirmRazorpayPaymentService hmac secret now db oid pid sig).db.doctors =
      db.doctors := by
  subst hpdef
  subst hsigdef
  have hpkey : p.razorpayOrderId = some oid := by
    have := List.find?_some hfind
    simpa using this
  have hver : verifyPaymentSignature hmac secret oid pid
      (hmac secret (oid ++ "|" ++ pid)) = true := by
    unfold verifyPaymentSignature
    rw [if_neg (by simp [hoid, hpid, hsig0])]
    exact beq_self_eq_true _
  obtain ⟨pre, post, hps, hpre, hsave⟩ :=
    savePayment_decomp (fun q => q.razorpayOrderId == some oid) db.payments p
      { p with
          status := "COMPLETED", razorpayPaymentId := some pid,
          razorpaySignature := some (hmac secret (oid ++ "|" ++ pid)), updatedAt := now }
      hfind hpids rfl
  have htfind : db.tenants.find?
      (fun u => u.id == p.tenantId && u.subscription.razorpayOrderId == some oid) =
        some t := by
    apply find_of_unique_match _ _ _ ht (by simp [htid, hto])
    intro u hu hq
    rw [Bool.and_eq_true, beq_iff_eq, beq_iff_eq] at hq
    exact List.inj_on_of_nodup_map htids hu ht (by rw [hq.1, htid])
  obtain ⟨preT, postT, hts, hpreT, hqt, hupd⟩ :=
    updateOneTenant_decomp db.tenants
      (fun u => u.id == p.tenantId && u.subscription.razorpayOrderId == some oid)
      (fun u => { u with subscription :=
        { u.subscription with
            plan := p.planCode
            status := "ACTIVE"
            razorpayPaymentId := some pid
            billingCycle := if p.billingCycle = "" then "monthly" else p.billingCycle
            activatedAt := some now } }) t htfind
  have hrun : confirmRazorpayPaymentService hmac secret now db oid pid
      (hmac secret (oid ++ "|" ++ pid)) =
      ⟨.ok { status := "COMPLETED", tenantId := p.tenantId, planCode := p.planCode,
             razorpayOrderId := some oid, razorpayPaymentId := some pid },
        { db with
            payments := savePayment db.payments
              { p with
                  status := "COMPLETED", razorpayPaymentId := some pid,
                  razorpaySignature := some (hmac secret (oid ++ "|" ++ pid)),
                  updatedAt := now },
            tenants := preT ++
              ({ t with subscription :=
                { t.subscription with
                    plan := p.planCode
                    status := "ACTIVE"
                    razorpayPaymentId := some pid
                    billingCycle := if p.billingCycle = "" then "monthly" else p.billingCycle
                    activatedAt := some now } } : Tenant) :: postT },
        true⟩ := by
    unfold confirmRazorpayPaymentService
    rw [if_neg (by simp [hoid, hpid, hsig0]), hfind]
    dsimp only
    rw [if_neg (by rw [hp]; decide), hver]
    simp only [if_true]
    rw [show (updateOneTenant db.tenants _ _ : List Tenant × Nat) =
      (preT ++ _ :: postT, 1) from hupd]
    dsimp only
    rw [if_neg (by decide : ¬(1 = 0))]
  have hkeep : (fun q => q.razorpayOrderId == some oid)
      ({ p with
          status := "COMPLETED", razorpayPaymentId := some pid,
          razorpaySignature := some (hmac secret (oid ++ "|" ++ pid)),
          updatedAt := now } : PaymentRecord) = true := by
    simpa using hpkey
  have hpostkey : ∀ u ∈ post, (u.razorpayOrderId == some oid) = false := by
    intro u hu
    rw [beq_eq_false_iff_ne]
    intro hk
    have hmem : u ∈ db.payments := by
      rw [hps]
      exact List.mem_append_right _ (List.mem_cons_of_mem _ hu)
    have hup : u = p := hkey u hmem hk
    exact nodup_key_decomp PaymentRecord.id pre post p (hps ▸ hpids) u (Or.inr hu)
      (by rw [hup])
  refine ⟨by rw [hrun], by rw [hrun], ?_, ?_, ?_, by rw [hrun], by rw [hrun]⟩
  · rw [hrun]
    show (savePayment db.payments _).find? _ = _
    rw [hsave]
    exact find_across_append pre _ post _ hpre hkeep
  · rw [hrun]
    show (savePayment db.payments _).filter _ = _
    rw [hsave]
    exact filter_across_append pre _ post _ hpre hkeep hpostkey
  · rw [hrun]
    intro u hu huid
    have hu2 : u ∈ preT ++
        ({ t with subscription :=
          { t.subscription with
              plan := p.planCode
              status := "ACTIVE"
              razorpayPaymentId := some pid
              billingCycle := if p.billingCycle = "" then "monthly" else p.billingCycle
              activatedAt := some now } } : Tenant) :: postT := hu
    rcases List.mem_append.mp hu2 with hmem | hmem
    · exact absurd (huid.trans htid.symm)
        (nodup_key_decomp Tenant.id preT postT t (hts ▸ htids) u (Or.inl hmem))
    · rcases List.mem_cons.mp hmem with hmem | hmem
      · rw [hmem]
      · exact absurd (huid.trans htid.symm)
          (nodup_key_decomp Tenant.id preT postT t (hts ▸ htids) u (Or.inr hmem))

/-! ## C1 — idempotence of payment confirmation -/

/-- C1: after a first successful confirmation of a pending payment (correct
signature, owning tenant holding the order id), calling the confirmation
again with the identical arguments returns the same result, leaves the
store completely unchanged (so the owning tenant is activated exactly
once), performs no second signature verification, and exactly one
PaymentRecord for this order exists — in status COMPLETED. -/
theorem confirmRazorpayPayment_idempotent
    (hmac : String → String → String) (secret : String) (now1 now2 : Nat) (db : DB)
    (oid pid sig : String) (p : PaymentRecord) (t : Tenant)
    (hoid : oid ≠ "") (hpid : pid ≠ "")
    (hsig0 : hmac secret (oid ++ "|" ++ pid) ≠ "")
    (hsigdef : sig = hmac secret (oid ++ "|" ++ pid))
    (hfind : findPaymentByOrder db oid = some p)
    (hkey : ∀ q ∈ db.payments, q.razorpayOrderId = some oid → q = p)
    (hpids : (db.payments.map PaymentRecord.id).Nodup)
    (hp : p.status = "PENDING")
    (ht : t ∈ db.tenants) (htid : t.id = p.tenantId)
    (hto : t.subscription.razorpayOrderId = some oid)
    (htids : (db.tenants.map Tenant.id).Nodup) :
    ∃ res : ConfirmResult,
      (confirmRazorpayPaymentService hmac secret now1 db oid pid sig).result = .ok res ∧
      (confirmRazorpayPaymentService hmac secret now2
        (confirmRazorpayPaymentService hmac secret now1 db oid pid sig).db
        oid pid sig).result = .ok res ∧
      (confirmRazorpayPaymentService hmac secret now2
        (confirmRazorpayPaymentService hmac secret now1 db oid pid sig).db
        oid pid sig).db =
        (confirmRazorpayPaymentService hmac secret now1 db oid pid sig).db ∧
      (confirmRazorpayPaymentService hmac secret now2
        (confirmRazorpayPaymentService hmac secret now1 db oid pid sig).db
        oid pid sig).sigVerifyInvoked = false ∧
      ((confirmRazorpayPaymentService hmac secret now1 db oid pid sig).db.payments.filter
        (fun q => q.razorpayOrderId == some oid)).length = 1 ∧
      (∀ q ∈ (confirmRazorpayPaymentService hmac secret now1 db oid pid sig).db.payments,
        q.razorpayOrderId = some oid → q.status = "COMPLETED") ∧
      (∀ u ∈ (confirmRazorpayPaymentService hmac secret now1 db oid pid sig).db.tenants,
        u.id = p.tenantId → u.subscription.status = "ACTIVE") := by
  have hsig : sig ≠ "" := by rw [hsigdef]; exact hsig0
  have hpkey : p.razorpayOrderId = some oid := by
    have := List.find?_some hfind
    simpa using this
  obtain ⟨hres1, hsv1, hfind1, hfilt1, hact1, hu1, hd1⟩ :=
    confirm_success_spec hmac secret now1 db oid pid sig p
      { p with
          status := "COMPLETED", razorpayPaymentId := some pid,
          razorpaySignature := some sig, updatedAt := now1 } t
      hoid hpid hsig0 hsigdef rfl hfind hkey hpids hp ht htid hto htids
  generalize hdb1 : (confirmRazorpayPaymentService hmac secret now1 db oid pid sig).db = db1
  rw [hdb1] at hfind1 hfilt1 hact1
  have hnomatch : ∀ u ∈ db1.tenants,
      (u.id == p.tenantId && u.subscription.status != "ACTIVE") = false := by
    intro u hu
    by_cases hid : u.id = p.tenantId
    · have hst := hact1 u hu hid
      simp [hst]
    · simp [hid]
  have hupd2 := updateOneTenant_of_no_match db1.tenants
    (fun u => u.id == p.tenantId && u.subscription.status != "ACTIVE")
    (fun u => { u with subscription :=
      { u.subscription with
          plan := p.planCode
          status := "ACTIVE"
          razorpayPaymentId := some pid
          activatedAt := some (if now1 = 0 then now2 else now1) } }) hnomatch
  have hrun2 : confirmRazorpayPaymentService hmac secret now2 db1 oid pid sig =
      ⟨.ok { status := "COMPLETED", tenantId := p.tenantId, planCode := p.planCode,
             razorpayOrderId := p.razorpayOrderId, razorpayPaymentId := some pid },
        db1, false⟩ := by
    unfold confirmRazorpayPaymentService
    rw [if_neg (by simp [hoid, hpid, hsig]), hfind1]
    dsimp only
    rw [if_pos rfl]
    rw [show (updateOneTenant db1.tenants _ _ : List Tenant × Nat) =
      (db1.tenants, 0) from hupd2]
  refine ⟨{ status := "COMPLETED", tenantId := p.tenantId,
            planCode := p.planCode, razorpayOrderId := some oid,
            razorpayPaymentId := some pid },
    hres1, ?_, ?_, ?_, ?_, ?_, hact1⟩
  · rw [hrun2, hpkey]
  · rw [hrun2]
  · rw [hrun2]
  · rw [hfilt1]
    rfl
  · intro q hq hqkey
    have hqf : q ∈ db1.payments.filter (fun q => q.razorpayOrderId == some oid) :=
      List.mem_filter.mpr ⟨hq, by simpa using hqkey⟩
    rw [hfilt1] at hqf
    rw [List.mem_singleton.mp hqf]

/-- Witness for C1 at the concrete fixture store: the second confirmation of
`order_1` returns the first result, does not change the store, and skips
the signature verification. -/
theorem confirmRazorpayPayment_idempotent_witness :
    ∃ res : ConfirmResult,
      (confirmRazorpayPaymentService hmacFix "secret" 100 dbFix "order_1" "pay_1"
        (hmacFix "secret" ("order_1" ++ "|" ++ "pay_1"))).result = .ok res ∧
      (confirmRazorpayPaymentService hmacFix "secret" 200
        (confirmRazorpayPaymentService hmacFix "secret" 100 dbFix "order_1" "pay_1"
          (hmacFix "secret" ("order_1" ++ "|" ++ "pay_1"))).db
        "order_1" "pay_1" (hmacFix "secret" ("order_1" ++ "|" ++ "pay_1"))).result =
        .ok res ∧
      (confirmRazorpayPaymentService hmacFix "secret" 200
        (confirmRazorpayPaymentService hmacFix "secret" 100 dbFix "order_1" "pay_1"
          (hmacFix "secret" ("order_1" ++ "|" ++ "pay_1"))).db
        "order_1" "pay_1" (hmacFix "secret" ("order_1" ++ "|" ++ "pay_1"))).db =
        (confirmRazorpayPaymentService hmacFix "secret" 100 dbFix "order_1" "pay_1"
          (hmacFix "secret" ("order_1" ++ "|" ++ "pay_1"))).db ∧
      (confirmRazorpayPaymentService hmacFix "secret" 200
        (confirmRazorpayPaymentService hmacFix "secret" 100 dbFix "order_1" "pay_1"
          (hmacFix "secret" ("order_1" ++ "|" ++ "pay_1"))).db
        "order_1" "pay_1" (hmacFix "secret" ("order_1" ++ "|" ++ "pay_1"))).sigVerifyInvoked =
        false := by
  obtain ⟨res, h1, h2, h3, h4, _, _, _⟩ :=
    confirmRazorpayPayment_idempotent hmacFix "secret" 100 200 dbFix "order_1" "pay_1"
      (hmacFix "secret" ("order_1" ++ "|" ++ "pay_1")) payPendingFix tenantActiveFix
      (by decide) (by decide) (by decide) rfl rfl (by decide) (by decide) (by decide)
      (by decide) (by decide) (by decide) (by decide)
  exact ⟨res, h1, h2, h3, h4⟩

/-! ## C10 — activation precedes the ownership check -/

/-- C10: when a pending payment with a valid signature is confirmed through
the HTTP controller by an authenticated tenant DIFFERENT from the payment's
owning tenant, the controller responds 403 "Payment does not belong to this
tenant" — but the state change the service already performed persists: the
payment record is COMPLETED and the owning tenant's subscription is ACTIVE
in the returned store. -/
theorem verifyOrder_403_after_activation
    (hmac : String → String → String) (secret : String) (now : Nat) (db : DB)
    (oid pid sig : String) (p : PaymentRecord) (t : Tenant) (authTid : Nat)
    (hoid : oid ≠ "") (hpid : pid ≠ "")
    (hsig0 : hmac secret (oid ++ "|" ++ pid) ≠ "")
    (hsigdef : sig = hmac secret (oid ++ "|" ++ pid))
    (hfind : findPaymentByOrder db oid = some p)
    (hkey : ∀ q ∈ db.payments, q.razorpayOrderId = some oid → q = p)
    (hpids : (db.payments.map PaymentRecord.id).Nodup)
    (hp : p.status = "PENDING")
    (ht : t ∈ db.tenants) (htid : t.id = p.tenantId)
    (hto : t.subscription.razorpayOrderId = some oid)
    (htids : (db.tenants.map Tenant.id).Nodup)
    (hauth : authTid ≠ p.tenantId) :
    (verifyOrder hmac secret now db (some authTid) oid pid sig).1 =
      .fail 403 "Payment does not belong to this tenant." ∧
    (∃ p', findPaymentByOrder (verifyOrder hmac secret now db (some authTid) oid pid sig).2
        oid = some p' ∧ p'.status = "COMPLETED") ∧
    (∀ u ∈ (verifyOrder hmac secret now db (some authTid) oid pid sig).2.tenants,
      u.id = p.tenantId → u.subscription.status = "ACTIVE") := by
  have hsig : sig ≠ "" := by rw [hsigdef]; exact hsig0
  obtain ⟨hres1, hsv1, hfind1, hfilt1, hact1, hu1, hd1⟩ :=
    confirm_success_spec hmac secret now db oid pid sig p
      { p with
          status := "COMPLETED", razorpayPaymentId := some pid,
          razorpaySignature := some sig, updatedAt := now } t
      hoid hpid hsig0 hsigdef rfl hfind hkey hpids hp ht htid hto htids
  have hrun : verifyOrder hmac secret now db (some authTid) oid pid sig =
      (.fail 403 "Payment does not belong to this tenant.",
       (confirmRazorpayPaymentService hmac secret now db oid pid sig).db) := by
    unfold verifyOrder
    dsimp only
    rw [if_neg (by simp [hoid, hpid, hsig]), hres1]
    dsimp only
    rw [if_pos (by exact fun hc => hauth hc.symm)]
  refine ⟨by rw [hrun], ⟨{ p with
      status := "COMPLETED", razorpayPaymentId := some pid,
      razorpaySignature := some sig, updatedAt := now }, ?_, rfl⟩, ?_⟩
  · rw [hrun]
    exact hfind1
  · rw [hrun]
    exact hact1

/-- Witness for C10: tenant 99 confirms tenant 1's payment; the response is
403 but the fixture payment is COMPLETED and tenant 1 is ACTIVE. -/
theorem verifyOrder_403_after_activation_witness :
    (verifyOrder hmacFix "secret" 100 dbFix (some 99) "order_1" "pay_1"
      (hmacFix "secret" ("order_1" ++ "|" ++ "pay_1"))).1 =
      .fail 403 "Payment does not belong to this tenant." ∧
    (∃ p', findPaymentByOrder
        (verifyOrder hmacFix "secret" 100 dbFix (some 99) "order_1" "pay_1"
          (hmacFix "secret" ("order_1" ++ "|" ++ "pay_1"))).2 "order_1" = some p' ∧
      p'.status = "COMPLETED") := by
  obtain ⟨h1, h2, _⟩ :=
    verifyOrder_403_after_activation hmacFix "secret" 100 dbFix "order_1" "pay_1"
      (hmacFix "secret" ("order_1" ++ "|" ++ "pay_1")) payPendingFix tenantActiveFix 99
      (by decide) (by decide) (by decide) rfl rfl (by decide) (by decide) (by decide)
      (by decide) (by decide) (by decide) (by decide) (by decide)
  exact ⟨h1, h2⟩

/-! ## C4 — subscription-status invariant and (non-)monotonicity -/

/-- C4 counterexample: an ACTIVE tenant that begins a new provider order is
moved BACK to PENDING_VERIFICATION by `createRazorpayOrderService` — an
operation of the core moves an ACTIVE tenant to an earlier state (and this
is not the ACTIVE↔PAST_DUE cycle), refuting the monotonicity part of the
claim. -/
theorem createOrder_moves_active_back :
    tenantActiveFix.subscription.status = "ACTIVE" ∧
    (∃ r, (createRazorpayOrderService plansFix (.ok "order_9") 11 50 dbFix
      orderReqFix).1 = .ok r) ∧
    (createRazorpayOrderService plansFix (.ok "order_9") 11 50 dbFix
      orderReqFix).2.tenants.map (fun t => t.subscription.status) =
      ["PENDING_VERIFICATION"] := by
  exact ⟨rfl, ⟨_, rfl⟩, rfl⟩

/-- `updateOneTenant` preserves a property that holds for every document
and is reestablished by the update function. -/
theorem updateOneTenant_pred (ts : List Tenant) (q : Tenant → Bool)
    (f : Tenant → Tenant) (P : Tenant → Prop)
    (hts : ∀ t ∈ ts, P t) (hf : ∀ t ∈ ts, P (f t)) :
    ∀ u ∈ (updateOneTenant ts q f).1, P u := by
  induction ts with
  | nil => intro u hu; cases hu
  | cons a rest ih =>
    intro u hu
    by_cases ha : q a
    · rw [show updateOneTenant (a :: rest) q f = (f a :: rest, 1) by
        simp [updateOneTenant, ha]] at hu
      rcases List.mem_cons.mp hu with h | h
      · exact h ▸ hf a (List.mem_cons_self a rest)
      · exact hts u (List.mem_cons_of_mem a h)
    · rw [show updateOneTenant (a :: rest) q f =
        (a :: (updateOneTenant rest q f).1, (updateOneTenant rest q f).2) by
        simp [updateOneTenant, ha]] at hu
      rcases List.mem_cons.mp hu with h | h
      · exact h ▸ hts a (List.mem_cons_self a rest)
      · exact ih (fun v hv => hts v (List.mem_cons_of_mem a hv))
          (fun v hv => hf v (List.mem_cons_of_mem a hv)) u h

/-- C4 (amended): every status the core operations write lies in the code
enum {ACTIVE, PAST_DUE, CANCELED, PENDING_VERIFICATION} — a strict subset
of the claimed five-value set, with PENDING_PAYMENT never occurring — so
the set-membership invariant is preserved by order creation, manual
submission, payment confirmation and registration; but the transitions are
NOT monotonic: a successful `createRazorpayOrderService` sets the target
tenant's status to PENDING_VERIFICATION whatever it was before, including
ACTIVE. -/
theorem subscription_status_invariant :
    (∀ (plans : List Plan) (provider : Except String String) (newPaymentId now : Nat)
        (db : DB) (req : CreateOrderReq),
      (∀ t ∈ db.tenants, t.subscription.status ∈ STATUSES) →
      ∀ t ∈ (createRazorpayOrderService plans provider newPaymentId now db req).2.tenants,
        t.subscription.status ∈ STATUSES) ∧
    (∀ (plans : List Plan) (newPaymentId now : Nat) (db : DB) (req : ManualReq),
      (∀ t ∈ db.tenants, t.subscription.status ∈ STATUSES) →
      ∀ t ∈ (submitManualPaymentService plans newPaymentId now db req).2.tenants,
        t.subscription.status ∈ STATUSES) ∧
    (∀ (hmac : String → String → String) (secret : String) (now : Nat) (db : DB)
        (oid pid sig : String),
      (∀ t ∈ db.tenants, t.subscription.status ∈ STATUSES) →
      ∀ t ∈ (confirmRazorpayPaymentService hmac secret now db oid pid sig).db.tenants,
        t.subscription.status ∈ STATUSES) ∧
    (∀ (hash : String → String) (uid tid : Nat) (failures : RegFailures) (db : DB)
        (owner : RegOwner) (clinic : RegClinic),
      (∀ t ∈ db.tenants, t.subscription.status ∈ STATUSES) →
      ∀ t ∈ (registerClinicTransaction hash uid tid failures db owner clinic).2.tenants,
        t.subscription.status ∈ STATUSES) ∧
    (∀ (plans : List Plan) (provider : Except String String) (newPaymentId now : Nat)
        (db : DB) (req : CreateOrderReq) (r : CreateOrderResult) (db' : DB) (t : Tenant),
      findTenant db req.tenantId = some t →
      createRazorpayOrderService plans provider newPaymentId now db req = (.ok r, db') →
      ∃ t', findTenant db' req.tenantId = some t' ∧
        t'.subscription.status = "PENDING_VERIFICATION") := by
  have hpv : ("PENDING_VERIFICATION" : String) ∈ STATUSES := by decide
  have hac : ("ACTIVE" : String) ∈ STATUSES := by decide
  refine ⟨?_, ?_, ?_, ?_, ?_⟩
  · intro plans provider newPaymentId now db req hinv
    rcases provider with e | orderId
    all_goals
      unfold createRazorpayOrderService
    · split
      · exact hinv
      split
      · exact hinv
      split
      · exact hinv
      split
      · exact hinv
      split
      · exact hinv
      split
      · exact hinv
      exact hinv
    · split
      · exact hinv
      split
      · exact hinv
      split
      · exact hinv
      split
      · exact hinv
      split
      · exact hinv
      split
      · exact hinv
      intro u hu
      refine updateOneTenant_pred db.tenants _ _
        (fun v => v.subscription.status ∈ STATUSES) hinv ?_ u hu
      intro v hv
      exact hpv
  · intro plans newPaymentId now db req hinv
    unfold submitManualPaymentService
    split
    · exact hinv
    split
    · exact hinv
    split
    · exact hinv
    split
    · exact hinv
    dsimp only
    split
    · exact hinv
    split
    · exact hinv
    split
    · exact hinv
    split
    · exact hinv
    intro u hu
    refine updateOneTenant_pred db.tenants _ _
      (fun v => v.subscription.status ∈ STATUSES) hinv ?_ u hu
    intro v hv
    exact hpv
  · intro hmac secret now db oid pid sig hinv
    unfold confirmRazorpayPaymentService
    split
    · exact hinv
    split
    · exact hinv
    next payment hfind =>
    split
    · intro u hu
      refine updateOneTenant_pred db.tenants _ _
        (fun v => v.subscription.status ∈ STATUSES) hinv ?_ u hu
      intro v hv
      exact hac
    · split
      · split
        all_goals dsimp only
        all_goals split
        all_goals
          intro u hu
          refine updateOneTenant_pred db.tenants _ _
            (fun v => v.subscription.status ∈ STATUSES) hinv ?_ u hu
          intro v hv
          exact hac
      · exact hinv
  · intro hash uid tid failures db owner clinic hinv
    unfold registerClinicTransaction
    dsimp only
    split
    · exact hinv
    split
    · exact hinv
    split
    · exact hinv
    split
    · exact hinv
    split
    · exact hinv
    split
    · exact hinv
    split
    · exact hinv
    split
    · exact hinv
    intro u hu
    rcases List.mem_append.mp hu with hm | hm
    · exact hinv u hm
    · rw [List.mem_singleton.mp hm]
      exact hac
  · intro plans provider newPaymentId now db req r db' t ht h
    unfold createRazorpayOrderService at h
    split at h
    · exact absurd h (by simp)
    split at h
    · exact absurd h (by simp)
    split at h
    · exact absurd h (by simp)
    split at h
    · exact absurd h (by simp)
    next t0 hts0 =>
    split at h
    next => exact absurd h (by simp)
    next pp hpp =>
    split at h
    next => exact absurd h (by simp)
    next amountPaise hap =>
    rcases provider with e | orderId
    · exact absurd h (by simp)
    simp only [Prod.mk.injEq, Except.ok.injEq] at h
    obtain ⟨h1, h2⟩ := h
    subst h1
    subst h2
    obtain ⟨pre, post, htsx, hpre, hqt, hupd⟩ :=
      updateOneTenant_decomp db.tenants (fun u => u.id == req.tenantId)
        (fun u => { u with subscription :=
          { u.subscription with
              plan := pp.code
              billingCycle := pp.cycle
              razorpayOrderId := some orderId
              status := "PENDING_VERIFICATION" } }) t ht
    unfold findTenant
    dsimp only
    rw [hupd]
    exact ⟨_, find_across_append pre _ post _ hpre (by simpa using hqt), rfl⟩

/-- Witness for the amended C4: the invariant is preserved at the fixture
order creation, and that call sets the previously ACTIVE fixture tenant to
PENDING_VERIFICATION. -/
theorem subscription_status_invariant_witness :
    (∀ t ∈ (createRazorpayOrderService plansFix (.ok "order_9") 11 50 dbFix
      orderReqFix).2.tenants, t.subscription.status ∈ STATUSES) ∧
    (∃ t', findTenant (createRazorpayOrderService plansFix (.ok "order_9") 11 50 dbFix
        orderReqFix).2 orderReqFix.tenantId = some t' ∧
      t'.subscription.status = "PENDING_VERIFICATION") := by
  constructor
  · exact subscription_status_invariant.1 plansFix (.ok "order_9") 11 50 dbFix orderReqFix
      (by decide)
  · obtain ⟨t', ht', hst⟩ :=
      subscription_status_invariant.2.2.2.2 plansFix (.ok "order_9") 11 50 dbFix
        orderReqFix _ _ tenantActiveFix rfl rfl
    exact ⟨t', ht', hst⟩

end Clinic
